import Mathlib

/-!
# Verification of the lisa Node core (src/lisa/node.py, src/lisa/tools/systemctl.py)

Shallow embedding of the node lifecycle, connection-descriptor handling,
tool registry and node factory of `src/lisa/node.py`, together with the
`Systemctl` capability of `src/lisa/tools/systemctl.py`.

Modelling conventions:
* Python exceptions become explicit error values (`NodeError`); each
  constructor corresponds to one `raise` site in the source.  Operations that
  in Python mutate `self` and may raise return the (possibly unchanged) node
  together with an optional error: a raise leaves the object exactly as it was
  at the raise point, which in every modelled operation is the state at entry
  (no mutation precedes any raise in the source paths modelled here).
* Side effects on the outside world (shell connect, the uname bootstrap
  probe, echo-based path expansion, mkdir, process start, tool instantiation,
  installed-probes and install attempts) are recorded as an `Event` trace and
  their outcomes are supplied by an environment (`InitEnv`, `ToolSpec`
  fields), since the collaborating classes (`Shell`, `Uname`, `Echo`, the
  `Tool` base class from `lisa.executable`) are outside the shown sources.
  Where such a collaborator's behaviour matters it is modelled from the spec
  and noted at the definition.
* Python truthiness of strings/ints (`not address`, `not port`) becomes
  emptiness / zero tests on `String` / `Nat`.
-/

/-- Substring test, the embedding of Python's `"Linux" in s` membership
test on strings: `pat` occurs contiguously in `s`. -/
def strContainsSub (s pat : String) : Bool :=
  (List.range (s.toList.length + 1)).any (fun i => pat.toList.isPrefixOf (s.toList.drop i))

/-- `lisa.util.shell.ConnectionInfo` as constructed at node.py:101-103:
address, port, username, password, privateKeyFile. -/
structure ConnectionInfo where
  address : String
  port : Nat
  username : String
  password : String
  privateKeyFile : String
deriving Repr, DecidableEq

/-- The shell transport attached to a node: `LocalShell()` at construction
(node.py:33), replaced by `SshShell(connection_info)` at node.py:104. -/
inductive Shell where
  | localShell : Shell
  | sshShell : ConnectionInfo → Shell
deriving Repr, DecidableEq

/-- The behaviour of a capability class, as `Node.get_tool` observes it.
`name` is the registry key (`tool_type.__name__.lower()` for class requests,
`tool_type.name` for script builders); `command` is the `command` property;
`is_installed`, `can_install` and the result of `install()` are the
capability contract of the `Tool` base class (`lisa.executable`, outside the
shown sources), modelled from the spec as booleans the capability itself
determines. -/
structure ToolSpec where
  name : String
  command : String
  is_installed : Bool
  can_install : Bool
  install_succeeds : Bool
deriving Repr, DecidableEq

/-- An instantiated tool: its behaviour plus an instance identity
(`instanceId` plays the role of Python object identity: each instantiation
performed by `get_tool` uses the node's fresh-id counter, so distinct
instantiations are distinguishable while a cache hit returns the very same
value). -/
structure Tool where
  spec : ToolSpec
  instanceId : Nat
deriving Repr, DecidableEq

/-- One error value per `raise` site of node.py reachable from the modelled
operations. -/
inductive NodeError where
  | alreadyConnected : NodeError
  | missingAddress : NodeError
  | missingPort : NodeError
  | unsupportedNodeType : String → NodeError
  | nodeTypeNone : NodeError
  | customScriptAsType : NodeError
  | stringToolNotFound : String → NodeError
  | installFailed : NodeError
  | unsupportedInstall : String → Bool → Bool → NodeError
  | shellConnectFailed : NodeError
  | missingConnectionInfo : NodeError
  | mkdirFailed : NodeError
deriving Repr, DecidableEq

/-- Observable side effects of the modelled operations. -/
inductive Event where
  | shellConnect : Event
  | unameProbe : Event
  | echoExpand : Event
  | mkdirCall : Event
  | processStart : Event
  | toolInstantiate : String → Event
  | isInstalledProbe : String → Event
  | installAttempt : String → Event
deriving Repr, DecidableEq

/-- The node state: the fields of `Node.__init__` (node.py:20-48) that the
modelled operations read or write, plus `next_instance_id`, the fresh-id
counter backing `Tool.instanceId`.  The `spec` payload and logger are
carried/omitted as inert. -/
structure Node where
  identifier : String
  is_remote : Bool
  is_default : Bool
  name : String
  kernel_release : String
  kernel_version : String
  hardware_platform : String
  operating_system : String
  connection_info : Option ConnectionInfo
  shell : Shell
  internal_address : String
  internal_port : Nat
  tools : List (String × Tool)
  next_instance_id : Nat
  is_inited : Bool
  is_linux : Bool
  working_path : String
deriving Repr, DecidableEq

/-- `Node.__init__` (node.py:20-48): fresh node, local shell, no connection
info, empty registry, uninitialized, `_is_linux = True`. -/
def Node.new (identifier : String) (is_remote : Bool) (is_default : Bool) : Node where
  identifier := identifier
  is_remote := is_remote
  is_default := is_default
  name := ""
  kernel_release := ""
  kernel_version := ""
  hardware_platform := ""
  operating_system := ""
  connection_info := none
  shell := Shell.localShell
  internal_address := ""
  internal_port := 0
  tools := []
  next_instance_id := 0
  is_inited := false
  is_linux := true
  working_path := ""

/-- `Node.create` (node.py:50-68): map the node-type string to the
`is_remote` flag; any other string raises. -/
def Node.create (identifier : String) (node_type : String) (is_default : Bool) :
    Except NodeError Node :=
  if node_type = "remote" then Except.ok (Node.new identifier true is_default)
  else if node_type = "local" then Except.ok (Node.new identifier false is_default)
  else Except.error (NodeError.unsupportedNodeType node_type)

/-- The keyword arguments of `Node.set_connection_info` (node.py:70-79) with
their Python default values. -/
structure ConnArgs where
  address : String := ""
  port : Nat := 22
  publicAddress : String := ""
  publicPort : Nat := 22
  username : String := "root"
  password : String := ""
  privateKeyFile : String := ""
deriving Repr, DecidableEq

/-- `Node.set_connection_info` (node.py:70-106).  Raises if connection info
was already set; raises if both addresses are empty, else mirrors the empty
one from the other; same for the two ports (zero playing Python falsiness);
then builds `ConnectionInfo` from the public pair plus credentials, attaches
an `SshShell` over it, and stores the internal pair on the node.  On a raise
the node is returned unchanged (no field was assigned before any raise in the
source). -/
def Node.set_connection_info (n : Node) (a : ConnArgs) : Node × Option NodeError :=
  if n.connection_info.isSome then (n, some NodeError.alreadyConnected)
  else if a.address = "" ∧ a.publicAddress = "" then (n, some NodeError.missingAddress)
  else
    let address := if a.address = "" then a.publicAddress else a.address
    let publicAddress := if a.publicAddress = "" then address else a.publicAddress
    if a.port = 0 ∧ a.publicPort = 0 then (n, some NodeError.missingPort)
    else
      let port := if a.port = 0 then a.publicPort else a.port
      let publicPort := if a.publicPort = 0 then port else a.publicPort
      let ci : ConnectionInfo :=
        ⟨publicAddress, publicPort, a.username, a.password, a.privateKeyFile⟩
      ({ n with
          connection_info := some ci
          shell := Shell.sshShell ci
          internal_address := address
          internal_port := port }, none)

/-- The node descriptor map consumed by `from_config` (node.py:281-307): the
`type` field, `isDefault`, and the allow-listed connection fields; `none`
means the key is absent from the map (so `set_connection_info` falls back to
its own default for that argument, exactly as the Python keyword-argument
filtering does). -/
structure NodeConfig where
  typ : Option String := none
  isDefault : Bool := false
  address : Option String := none
  port : Option Nat := none
  publicAddress : Option String := none
  publicPort : Option Nat := none
  username : Option String := none
  password : Option String := none
  privateKeyFile : Option String := none
deriving Repr, DecidableEq

/-- `from_config` (node.py:281-307): a missing `type` raises; a `type` in
{local, remote} builds the node (feeding the allow-listed present fields to
`set_connection_info` when remote); any other `type` value falls through and
the function returns `none` without raising. -/
def from_config (identifier : String) (c : NodeConfig) : Except NodeError (Option Node) :=
  match c.typ with
  | none => Except.error NodeError.nodeTypeNone
  | some t =>
    if t = "local" ∨ t = "remote" then
      match Node.create identifier t c.isDefault with
      | Except.error e => Except.error e
      | Except.ok node =>
        if node.is_remote then
          let args : ConnArgs :=
            { address := c.address.getD ""
              port := c.port.getD 22
              publicAddress := c.publicAddress.getD ""
              publicPort := c.publicPort.getD 22
              username := c.username.getD "root"
              password := c.password.getD ""
              privateKeyFile := c.privateKeyFile.getD "" }
          match node.set_connection_info args with
          | (n', none) => Except.ok (some n')
          | (_, some e) => Except.error e
        else Except.ok (some node)
    else Except.ok none

/-- The argument of `Node.get_tool` (node.py:117-125): a capability class
(`Type[T]`), an already-built script builder instance (`CustomScriptBuilder`),
a bare string key, or the `CustomScriptBuilder` class object itself (the
misuse rejected at node.py:118-119).  For class and builder requests the
observable behaviour of the requested capability is its `ToolSpec` (whose
`name` is the derived registry key). -/
inductive ToolRequest where
  | byType : ToolSpec → ToolRequest
  | byScript : ToolSpec → ToolRequest
  | byKey : String → ToolRequest
  | customScriptClass : ToolRequest
deriving Repr, DecidableEq

/-- The registry key `tool_key` computed at node.py:120-125; the
`CustomScriptBuilder` class misuse has no key (it raises before the key is
computed). -/
def ToolRequest.key : ToolRequest → Option String
  | ToolRequest.byType s => some s.name
  | ToolRequest.byScript s => some s.name
  | ToolRequest.byKey k => some k
  | ToolRequest.customScriptClass => none

instance {ε α : Type} [DecidableEq ε] [DecidableEq α] : DecidableEq (Except ε α) := fun a b =>
  match a, b with
  | Except.error x, Except.error y =>
    if h : x = y then Decidable.isTrue (congrArg Except.error h)
    else Decidable.isFalse (fun hh => h (Except.error.inj hh))
  | Except.error _, Except.ok _ => Decidable.isFalse (fun hh => Except.noConfusion hh)
  | Except.ok _, Except.error _ => Decidable.isFalse (fun hh => Except.noConfusion hh)
  | Except.ok x, Except.ok y =>
    if h : x = y then Decidable.isTrue (congrArg Except.ok h)
    else Decidable.isFalse (fun hh => h (Except.ok.inj hh))

/-- Result of one `get_tool` call: the node afterwards (unchanged when the
call raises: the only mutation in the source is the cache assignment at
node.py:162, which a raise skips), the returned tool or the raised error, and
the trace of side effects. -/
structure GetToolResult where
  node : Node
  result : Except NodeError Tool
  events : List Event
deriving Repr, DecidableEq

/-- The install phase of `Node.get_tool` (node.py:142-163) for a freshly
instantiated tool: probe `is_installed`; when not installed, install if
`can_install` (raising if the install reports failure) and otherwise raise
the doesn't-support-install error carrying identifier and the linux/remote
flags; on every non-raising path cache the instance under `k`. -/
def Node.finishTool (n : Node) (k : String) (spec : ToolSpec) : GetToolResult :=
  let tool : Tool := ⟨spec, n.next_instance_id⟩
  let cached : Node :=
    { n with
        tools := (k, tool) :: n.tools
        next_instance_id := n.next_instance_id + 1 }
  if spec.is_installed then
    ⟨cached, Except.ok tool, [Event.toolInstantiate k, Event.isInstalledProbe k]⟩
  else if spec.can_install then
    if spec.install_succeeds then
      ⟨cached, Except.ok tool,
        [Event.toolInstantiate k, Event.isInstalledProbe k, Event.installAttempt k]⟩
    else
      ⟨n, Except.error NodeError.installFailed,
        [Event.toolInstantiate k, Event.isInstalledProbe k, Event.installAttempt k]⟩
  else
    ⟨n, Except.error (NodeError.unsupportedInstall n.identifier n.is_linux n.is_remote),
      [Event.toolInstantiate k, Event.isInstalledProbe k]⟩

/-- `Node.get_tool` (node.py:117-163): reject the `CustomScriptBuilder`
class object; compute the registry key; return the cached instance when
present (no instantiation, no probe, no install); a cache miss on a bare
string key raises; otherwise instantiate (class construction or builder
build — `tool.initialize()` of the base class is an inert setup step here)
and run the install phase. -/
def Node.get_tool (n : Node) (req : ToolRequest) : GetToolResult :=
  match req with
  | ToolRequest.customScriptClass => ⟨n, Except.error NodeError.customScriptAsType, []⟩
  | ToolRequest.byKey k =>
    match List.lookup k n.tools with
    | some t => ⟨n, Except.ok t, []⟩
    | none => ⟨n, Except.error (NodeError.stringToolNotFound k), []⟩
  | ToolRequest.byScript spec =>
    match List.lookup spec.name n.tools with
    | some t => ⟨n, Except.ok t, []⟩
    | none => Node.finishTool n spec.name spec
  | ToolRequest.byType spec =>
    match List.lookup spec.name n.tools with
    | some t => ⟨n, Except.ok t, []⟩
    | none => Node.finishTool n spec.name spec

/-- A sequence of `get_tool` calls by a caller that keeps the node across
calls and survives raises (a raise leaves the node as it was, node.py:162
never having run). -/
def Node.getToolSeq (n : Node) : List ToolRequest → Node × List Event
  | [] => (n, [])
  | req :: rest =>
    let g := n.get_tool req
    let r := g.node.getToolSeq rest
    (r.1, g.events ++ r.2)

/-- `Systemctl` (src/lisa/tools/systemctl.py): command `systemctl`,
`can_install` unconditionally `False`.  Its registry key is
`Systemctl.__name__.lower() = "systemctl"`.  Whether it `is_installed` on a
given node is decided by the `Tool` base class (outside the shown sources;
per the spec, a capability checks for its executable on PATH), so it is a
parameter; `install()` is never reachable (modelled as failing). -/
def Systemctl (is_installed : Bool) : ToolSpec where
  name := "systemctl"
  command := "systemctl"
  is_installed := is_installed
  can_install := false
  install_succeeds := false

/-- The probe result of `uname.get_linux_information` (node.py:211-216):
kernel release, kernel version, hardware platform, operating system.  The
`Uname` tool lives in `lisa.tool` (outside the shown sources); per the spec
the bootstrap probe is best-effort and "returns nothing" degrades to empty
strings rather than raising. -/
structure UnameResult where
  kernel_release : String
  kernel_version : String
  hardware_platform : String
  operating_system : String
deriving Repr, DecidableEq

/-- The environment `Node._initialize` runs against: whether the shell
connect succeeds, the bootstrap probe result, the echo-based shell expansion
of a path text (`lisa.util.shell` / `Echo`, outside the shown sources), the
run-scoped path segments (`lisa.util.env`, outside the shown sources), and
whether mkdir succeeds. -/
structure InitEnv where
  shell_connect_ok : Bool
  uname_result : UnameResult
  echo_expand : String → String
  run_path : String
  run_local_path : String
  mkdir_ok : Bool

/-- Result of `Node._initialize`: the node afterwards, the side-effect
trace, and the raised error if any. -/
structure InitResult where
  node : Node
  events : List Event
  err : Option NodeError
deriving Repr, DecidableEq

/-- The platform-classification step of `Node._initialize`
(node.py:210-218): store the four probed strings, then clear `_is_linux`
when the kernel release is empty or the OS string does not contain
`"Linux"`. -/
def Node.classify (n : Node) (u : UnameResult) : Node :=
  let n2 : Node :=
    { n with
        kernel_release := u.kernel_release
        kernel_version := u.kernel_version
        hardware_platform := u.hardware_platform
        operating_system := u.operating_system }
  if u.kernel_release == "" || !(strContainsSub u.operating_system "Linux") then
    { n2 with is_linux := false }
  else n2

/-- The working-path steps of `Node._initialize` (node.py:229-254): for a
remote node assert the connection info (raising when absent), build the
logical path `<root>/lisa_working/<run-path>` with a `$HOME` root for Linux
and `%TEMP%` otherwise, expand it through the echo tool; for a local node
take the precomputed local run path; then mkdir the working path (raising
when mkdir fails). -/
def Node.workPath (n : Node) (env : InitEnv) : InitResult :=
  if n.is_remote then
    match n.connection_info with
    | none => ⟨n, [], some NodeError.missingConnectionInfo⟩
    | some _ =>
      let root := if n.is_linux then "$HOME" else "%TEMP%"
      let n4 : Node :=
        { n with working_path := env.echo_expand (root ++ "/lisa_working/" ++ env.run_path) }
      if env.mkdir_ok then ⟨n4, [Event.echoExpand, Event.mkdirCall], none⟩
      else ⟨n4, [Event.echoExpand, Event.mkdirCall], some NodeError.mkdirFailed⟩
  else
    let n4 : Node := { n with working_path := env.run_local_path }
    if env.mkdir_ok then ⟨n4, [Event.mkdirCall], none⟩
    else ⟨n4, [Event.mkdirCall], some NodeError.mkdirFailed⟩

/-- `Node._initialize` (node.py:204-254): a no-op when the one-shot flag is
already set; otherwise the flag is set *first* (node.py:206-207, "prevent
loop calls"), then the shell connects (a raise here propagates with the flag
already set), the uname bootstrap probe runs and classifies the platform,
and the working path is resolved and created.  The flag is never reset, also
on a raise. -/
def Node.runInit (n : Node) (env : InitEnv) : InitResult :=
  if n.is_inited then ⟨n, [], none⟩
  else
    let n1 : Node := { n with is_inited := true }
    if env.shell_connect_ok then
      let n3 := n1.classify env.uname_result
      let w := n3.workPath env
      ⟨w.node, Event.shellConnect :: Event.unameProbe :: w.events, w.err⟩
    else ⟨n1, [Event.shellConnect], some NodeError.shellConnectFailed⟩

/-- The public entry points that trigger initialization: `execute`
(node.py:165-180) and `executeasync` (node.py:182-197), both of which start
a process after initializing, and the `is_linux` property (node.py:199-202),
which only reads the classification. -/
inductive NodeOp where
  | opExecute : String → NodeOp
  | opExecuteAsync : String → NodeOp
  | opIsLinux : NodeOp
deriving Repr, DecidableEq

/-- One public call: run `_initialize` first; when it raises, the exception
propagates (no process starts); otherwise `execute`/`executeasync` start a
process (`_execute`, node.py:256-275) while `is_linux` just returns the
flag. -/
def Node.step (n : Node) (env : InitEnv) (op : NodeOp) : Node × List Event :=
  let r := n.runInit env
  match r.err with
  | some _ => (r.node, r.events)
  | none =>
    match op with
    | NodeOp.opExecute _ => (r.node, r.events ++ [Event.processStart])
    | NodeOp.opExecuteAsync _ => (r.node, r.events ++ [Event.processStart])
    | NodeOp.opIsLinux => (r.node, r.events)

/-- A sequence of public calls against one node (the caller surviving
raises), with the concatenated side-effect trace. -/
def Node.runOps (n : Node) (env : InitEnv) : List NodeOp → Node × List Event
  | [] => (n, [])
  | op :: rest =>
    let s := n.step env op
    let r := s.1.runOps env rest
    (r.1, s.2 ++ r.2)

/-- C6: a first `set_connection_info` call with at least one non-empty
address and at least one non-zero port succeeds, and both members of each
pair end up populated, the missing member mirrored from the present one. -/
theorem c6_conn_info_mirrors (n : Node) (a : ConnArgs)
    (h0 : n.connection_info = none)
    (h1 : a.address ≠ "" ∨ a.publicAddress ≠ "")
    (h2 : a.port ≠ 0 ∨ a.publicPort ≠ 0) :
    (n.set_connection_info a).2 = none ∧
    (n.set_connection_info a).1.internal_address ≠ "" ∧
    (n.set_connection_info a).1.internal_port ≠ 0 ∧
    ∃ ci : ConnectionInfo,
      (n.set_connection_info a).1.connection_info = some ci ∧
      ci.address ≠ "" ∧ ci.port ≠ 0 ∧
      (a.address = "" → (n.set_connection_info a).1.internal_address = a.publicAddress) ∧
      (a.publicAddress = "" → ci.address = a.address) ∧
      (a.port = 0 → (n.set_connection_info a).1.internal_port = a.publicPort) ∧
      (a.publicPort = 0 → ci.port = a.port) := by
  have hns : n.connection_info.isSome = false := by rw [h0]; rfl
  by_cases ha : a.address = "" <;> by_cases hpa : a.publicAddress = "" <;>
    by_cases hp : a.port = 0 <;> by_cases hpp : a.publicPort = 0 <;>
      simp_all [Node.set_connection_info]

/-- C6 witness: only the internal address and only the internal port given;
the public pair is mirrored. -/
theorem c6_conn_info_mirrors_witness :
    ((Node.new "w" true false).connection_info = none ∧
      (("10.0.0.5" : String) ≠ "" ∨ (("" : String) ≠ "")) ∧
      ((922 : Nat) ≠ 0 ∨ ((0 : Nat) ≠ 0))) ∧
    (((Node.new "w" true false).set_connection_info
        { address := "10.0.0.5", port := 922, publicPort := 0 }).2 = none ∧
      ((Node.new "w" true false).set_connection_info
        { address := "10.0.0.5", port := 922, publicPort := 0 }).1.internal_address ≠ "" ∧
      ((Node.new "w" true false).set_connection_info
        { address := "10.0.0.5", port := 922, publicPort := 0 }).1.internal_port ≠ 0 ∧
      ∃ ci : ConnectionInfo,
        ((Node.new "w" true false).set_connection_info
          { address := "10.0.0.5", port := 922, publicPort := 0 }).1.connection_info = some ci ∧
        ci.address ≠ "" ∧ ci.port ≠ 0 ∧
        (("10.0.0.5" : String) = "" → ((Node.new "w" true false).set_connection_info
          { address := "10.0.0.5", port := 922, publicPort := 0 }).1.internal_address = "") ∧
        (("" : String) = "" → ci.address = "10.0.0.5") ∧
        ((922 : Nat) = 0 → ((Node.new "w" true false).set_connection_info
          { address := "10.0.0.5", port := 922, publicPort := 0 }).1.internal_port = 0) ∧
        ((0 : Nat) = 0 → ci.port = 922)) :=
  ⟨⟨rfl, by decide, by decide⟩,
    c6_conn_info_mirrors (Node.new "w" true false)
      { address := "10.0.0.5", port := 922, publicPort := 0 } rfl (by decide) (by decide)⟩

/-- C7: a first `set_connection_info` call fails exactly when both addresses
are empty or both ports are zero, and on failure the node is unchanged — in
particular no connection info and no ssh shell is attached. -/
theorem c7_conn_info_failure (n : Node) (a : ConnArgs)
    (h0 : n.connection_info = none) :
    ((n.set_connection_info a).2.isSome ↔
      ((a.address = "" ∧ a.publicAddress = "") ∨ (a.port = 0 ∧ a.publicPort = 0))) ∧
    ((n.set_connection_info a).2.isSome → (n.set_connection_info a).1 = n) ∧
    ((n.set_connection_info a).2.isSome →
      (n.set_connection_info a).1.connection_info = none) := by
  have hns : n.connection_info.isSome = false := by rw [h0]; rfl
  by_cases ha : a.address = "" <;> by_cases hpa : a.publicAddress = "" <;>
    by_cases hp : a.port = 0 <;> by_cases hpp : a.publicPort = 0 <;>
      simp_all [Node.set_connection_info]

/-- C7 witness: both ports zero fails and attaches nothing; evaluated on a
fresh node. -/
theorem c7_conn_info_failure_witness :
    ((Node.new "w" true false).connection_info = none) ∧
    ((((Node.new "w" true false).set_connection_info
        { address := "a", port := 0, publicPort := 0 }).2.isSome ↔
      ((("a" : String) = "" ∧ ("" : String) = "") ∨ ((0 : Nat) = 0 ∧ (0 : Nat) = 0))) ∧
     (((Node.new "w" true false).set_connection_info
        { address := "a", port := 0, publicPort := 0 }).2.isSome →
      ((Node.new "w" true false).set_connection_info
        { address := "a", port := 0, publicPort := 0 }).1 = Node.new "w" true false) ∧
     (((Node.new "w" true false).set_connection_info
        { address := "a", port := 0, publicPort := 0 }).2.isSome →
      ((Node.new "w" true false).set_connection_info
        { address := "a", port := 0, publicPort := 0 }).1.connection_info = none)) :=
  ⟨rfl, c7_conn_info_failure (Node.new "w" true false)
    { address := "a", port := 0, publicPort := 0 } rfl⟩

/-- C9: after a successful `set_connection_info`, the ssh shell is built
over exactly the connection info, whose address and port are the public
pair (after mirroring) plus the credentials; the internal pair is stored on
the node and is not part of the connection info the shell uses. -/
theorem c9_shell_uses_public_pair (n : Node) (a : ConnArgs)
    (h : (n.set_connection_info a).2 = none) :
    ∃ ci : ConnectionInfo,
      (n.set_connection_info a).1.connection_info = some ci ∧
      (n.set_connection_info a).1.shell = Shell.sshShell ci ∧
      ci.address = (if a.publicAddress = ""
        then (if a.address = "" then a.publicAddress else a.address) else a.publicAddress) ∧
      ci.port = (if a.publicPort = 0
        then (if a.port = 0 then a.publicPort else a.port) else a.publicPort) ∧
      ci.username = a.username ∧ ci.password = a.password ∧
      ci.privateKeyFile = a.privateKeyFile ∧
      (n.set_connection_info a).1.internal_address
        = (if a.address = "" then a.publicAddress else a.address) ∧
      (n.set_connection_info a).1.internal_port
        = (if a.port = 0 then a.publicPort else a.port) := by
  by_cases hs : n.connection_info.isSome <;>
    by_cases ha : a.address = "" <;> by_cases hpa : a.publicAddress = "" <;>
      by_cases hp : a.port = 0 <;> by_cases hpp : a.publicPort = 0 <;>
        simp_all [Node.set_connection_info]

/-- C9 witness: only the internal pair given; the shell's connection info
carries the mirrored values. -/
theorem c9_shell_uses_public_pair_witness :
    (((Node.new "w" true false).set_connection_info
        { address := "10.0.0.5", port := 922, publicAddress := "", publicPort := 0 }).2 = none) ∧
    (∃ ci : ConnectionInfo,
      ((Node.new "w" true false).set_connection_info
        { address := "10.0.0.5", port := 922, publicAddress := "", publicPort := 0 }).1.connection_info
          = some ci ∧
      ((Node.new "w" true false).set_connection_info
        { address := "10.0.0.5", port := 922, publicAddress := "", publicPort := 0 }).1.shell
          = Shell.sshShell ci ∧
      ci.address = (if ("" : String) = ""
        then (if ("10.0.0.5" : String) = "" then "" else "10.0.0.5") else "") ∧
      ci.port = (if (0 : Nat) = 0 then (if (922 : Nat) = 0 then 0 else 922) else 0) ∧
      ci.username = "root" ∧ ci.password = "" ∧ ci.privateKeyFile = "" ∧
      ((Node.new "w" true false).set_connection_info
        { address := "10.0.0.5", port := 922, publicAddress := "", publicPort := 0 }).1.internal_address
          = (if ("10.0.0.5" : String) = "" then "" else "10.0.0.5") ∧
      ((Node.new "w" true false).set_connection_info
        { address := "10.0.0.5", port := 922, publicAddress := "", publicPort := 0 }).1.internal_port
          = (if (922 : Nat) = 0 then 0 else 922)) :=
  ⟨by decide, c9_shell_uses_public_pair (Node.new "w" true false)
    { address := "10.0.0.5", port := 922, publicAddress := "", publicPort := 0 } (by decide)⟩

/-- C8 counterexample: a descriptor whose `type` field holds the unknown
value `"azure"` does not make `from_config` fail — it returns no node,
without raising any error (node.py:283,286-289,307: `node` stays `None` and
is returned). -/
theorem c8_counterexample :
    from_config "n1" { typ := some "azure" } = Except.ok none := by decide

/-- C8 (amended): `from_config` reads the `type` field and fails with a
configuration error when the field is missing; when the field holds any
value other than `local` or `remote` it returns no node, without raising. -/
theorem c8_type_dispatch (identifier : String) (c : NodeConfig) :
    (c.typ = none → from_config identifier c = Except.error NodeError.nodeTypeNone) ∧
    (∀ t, c.typ = some t → t ≠ "local" → t ≠ "remote" →
      from_config identifier c = Except.ok none) := by
  constructor
  · intro h
    simp [from_config, h]
  · intro t hc h1 h2
    simp [from_config, hc, h1, h2]

/-- C8 witness: a missing `type` raises; an unknown `type` value yields no
node and no error. -/
theorem c8_type_dispatch_witness :
    (from_config "x" { typ := none } = Except.error NodeError.nodeTypeNone) ∧
    (from_config "y" { typ := some "azure" } = Except.ok none) :=
  ⟨(c8_type_dispatch "x" { typ := none }).1 rfl,
    (c8_type_dispatch "y" { typ := some "azure" }).2 "azure" rfl (by decide) (by decide)⟩

theorem lookup_cons_self {α : Type} [BEq α] [LawfulBEq α] {β : Type} (k : α) (t : β)
    (l : List (α × β)) : List.lookup k ((k, t) :: l) = some t := by
  simp [List.lookup]

/-- A cache hit: when the request's registry key is already cached, the
call returns the cached instance, the node unchanged, with no side
effects (node.py:126-127,163). -/
theorem get_tool_hit (n : Node) (req : ToolRequest) (k : String) (t : Tool)
    (hk : req.key = some k) (hl : List.lookup k n.tools = some t) :
    n.get_tool req = ⟨n, Except.ok t, []⟩ := by
  cases req <;> simp [ToolRequest.key] at hk <;> subst hk <;>
    simp [Node.get_tool, hl]

/-- Every successful `get_tool` leaves the returned instance cached in the
resulting node under the request's key (node.py:162). -/
theorem get_tool_success_lookup (n : Node) (req : ToolRequest) (t : Tool)
    (h : (n.get_tool req).result = Except.ok t) :
    ∃ k, req.key = some k ∧ List.lookup k (n.get_tool req).node.tools = some t := by
  cases req with
  | customScriptClass => simp [Node.get_tool] at h
  | byKey k =>
    refine ⟨k, rfl, ?_⟩
    cases hl : List.lookup k n.tools with
    | none => simp [Node.get_tool, hl] at h
    | some t' =>
      simp [Node.get_tool, hl] at h ⊢
      exact h
  | byType s =>
    refine ⟨s.name, rfl, ?_⟩
    cases hl : List.lookup s.name n.tools with
    | none =>
      simp only [Node.get_tool, hl] at h ⊢
      unfold Node.finishTool at h ⊢
      split_ifs at h ⊢ with h1 h2 h3 <;> simp_all [lookup_cons_self]
    | some t' =>
      simp [Node.get_tool, hl] at h ⊢
      exact h
  | byScript s =>
    refine ⟨s.name, rfl, ?_⟩
    cases hl : List.lookup s.name n.tools with
    | none =>
      simp only [Node.get_tool, hl] at h ⊢
      unfold Node.finishTool at h ⊢
      split_ifs at h ⊢ with h1 h2 h3 <;> simp_all [lookup_cons_self]
    | some t' =>
      simp [Node.get_tool, hl] at h ⊢
      exact h

/-- Repeating a request whose key is cached any number of times does
nothing: the node is unchanged and the trace is empty. -/
theorem getToolSeq_cached (n : Node) (req : ToolRequest) (k : String) (t : Tool)
    (hk : req.key = some k) (hl : List.lookup k n.tools = some t) (m : Nat) :
    n.getToolSeq (List.replicate m req) = (n, []) := by
  induction m with
  | zero => simp [Node.getToolSeq]
  | succ m ih =>
    have hhit := get_tool_hit n req k t hk hl
    simp [List.replicate_succ, Node.getToolSeq, hhit, ih]

/-- The side-effect trace of any single `get_tool` call is duplicate-free:
instantiation, the installed-probe and the install attempt each occur at
most once. -/
theorem get_tool_events_nodup (n : Node) (req : ToolRequest) :
    (n.get_tool req).events.Nodup := by
  cases req with
  | customScriptClass => simp [Node.get_tool]
  | byKey k =>
    cases hl : List.lookup k n.tools <;> simp [Node.get_tool, hl]
  | byType s =>
    cases hl : List.lookup s.name n.tools with
    | some t => simp [Node.get_tool, hl]
    | none =>
      simp only [Node.get_tool, hl]
      unfold Node.finishTool
      split_ifs <;> simp
  | byScript s =>
    cases hl : List.lookup s.name n.tools with
    | some t => simp [Node.get_tool, hl]
    | none =>
      simp only [Node.get_tool, hl]
      unfold Node.finishTool
      split_ifs <;> simp

/-- C3: once a `get_tool` call for a key succeeds, any subsequent
`get_tool` with the same key (by class, builder, or bare string) returns
the very same cached instance from the unchanged node, with no further
instantiation, installed-probe, or install attempt (empty trace). -/
theorem c3_tool_resolution_memoizes (n : Node) (req1 req2 : ToolRequest)
    (k : String) (t : Tool)
    (h1 : req1.key = some k) (h2 : req2.key = some k)
    (hok : (n.get_tool req1).result = Except.ok t) :
    (n.get_tool req1).node.get_tool req2 = ⟨(n.get_tool req1).node, Except.ok t, []⟩ := by
  obtain ⟨k', hk', hl⟩ := get_tool_success_lookup n req1 t hok
  rw [h1] at hk'
  obtain rfl : k = k' := Option.some.inj hk'
  exact get_tool_hit _ req2 k t h2 hl

/-- C3 witness: an installed capability keyed `echo` is resolved once by
class, then again by bare string key; the same instance comes back with
no side effects. -/
theorem c3_tool_resolution_memoizes_witness :
    ((ToolRequest.byType ⟨"echo", "echo", true, true, true⟩).key = some "echo" ∧
      (ToolRequest.byKey "echo").key = some "echo" ∧
      ((Node.new "n" true false).get_tool
        (ToolRequest.byType ⟨"echo", "echo", true, true, true⟩)).result
          = Except.ok ⟨⟨"echo", "echo", true, true, true⟩, 0⟩) ∧
    ((Node.new "n" true false).get_tool
        (ToolRequest.byType ⟨"echo", "echo", true, true, true⟩)).node.get_tool
          (ToolRequest.byKey "echo")
      = ⟨((Node.new "n" true false).get_tool
            (ToolRequest.byType ⟨"echo", "echo", true, true, true⟩)).node,
          Except.ok ⟨⟨"echo", "echo", true, true, true⟩, 0⟩, []⟩ :=
  ⟨⟨rfl, rfl, by decide⟩,
    c3_tool_resolution_memoizes (Node.new "n" true false)
      (ToolRequest.byType ⟨"echo", "echo", true, true, true⟩)
      (ToolRequest.byKey "echo") "echo" ⟨⟨"echo", "echo", true, true, true⟩, 0⟩
      rfl rfl (by decide)⟩

/-- C4 counterexample: a capability whose install fails is *not* cached —
the failing resolution leaves the node unchanged, and a second `get_tool`
with the same key re-instantiates and re-attempts the install, so across
two calls the install runs twice (the cache assignment at node.py:162 is
skipped when node.py:152 raises), contradicting "installation is attempted
at most once per key across all get_tool calls, including when resolution
fails". -/
theorem c4_counterexample :
    ((Node.new "n" true false).get_tool
        (ToolRequest.byType ⟨"mytool", "mytool", false, true, false⟩)).result
      = Except.error NodeError.installFailed ∧
    ((Node.new "n" true false).get_tool
        (ToolRequest.byType ⟨"mytool", "mytool", false, true, false⟩)).node
      = Node.new "n" true false ∧
    ((Node.new "n" true false).getToolSeq
        [ToolRequest.byType ⟨"mytool", "mytool", false, true, false⟩,
         ToolRequest.byType ⟨"mytool", "mytool", false, true, false⟩]).2.count
        (Event.installAttempt "mytool") = 2 := by decide

/-- C4 (amended): for resolutions that succeed, installation is attempted
at most once per key: a single call attempts it at most once, the instance
is cached, and any number of repeated requests with the same key perform no
further work at all.  A failed resolution caches nothing (the node is left
exactly as it was), so a later `get_tool` with the same key retries
instantiation and installation. -/
theorem c4_install_attempted_once_on_success (n : Node) (req : ToolRequest)
    (k : String) (t : Tool) (m : Nat)
    (h1 : req.key = some k) (hok : (n.get_tool req).result = Except.ok t) :
    (n.get_tool req).events.count (Event.installAttempt k) ≤ 1 ∧
    (n.get_tool req).node.getToolSeq (List.replicate m req)
      = ((n.get_tool req).node, []) := by
  constructor
  · exact List.nodup_iff_count_le_one.mp (get_tool_events_nodup n req) _
  · obtain ⟨k', hk', hl⟩ := get_tool_success_lookup n req t hok
    rw [h1] at hk'
    obtain rfl : k = k' := Option.some.inj hk'
    exact getToolSeq_cached _ req k t h1 hl m

/-- C4 witness: an installable-but-absent capability is installed once;
three repeated requests afterwards do nothing. -/
theorem c4_install_attempted_once_on_success_witness :
    ((ToolRequest.byType ⟨"gcc", "gcc", false, true, true⟩).key = some "gcc" ∧
      ((Node.new "n" true false).get_tool
        (ToolRequest.byType ⟨"gcc", "gcc", false, true, true⟩)).result
          = Except.ok ⟨⟨"gcc", "gcc", false, true, true⟩, 0⟩) ∧
    (((Node.new "n" true false).get_tool
        (ToolRequest.byType ⟨"gcc", "gcc", false, true, true⟩)).events.count
        (Event.installAttempt "gcc") ≤ 1 ∧
      ((Node.new "n" true false).get_tool
        (ToolRequest.byType ⟨"gcc", "gcc", false, true, true⟩)).node.getToolSeq
          (List.replicate 3 (ToolRequest.byType ⟨"gcc", "gcc", false, true, true⟩))
        = (((Node.new "n" true false).get_tool
            (ToolRequest.byType ⟨"gcc", "gcc", false, true, true⟩)).node, [])) :=
  ⟨⟨rfl, by decide⟩,
    c4_install_attempted_once_on_success (Node.new "n" true false)
      (ToolRequest.byType ⟨"gcc", "gcc", false, true, true⟩) "gcc"
      ⟨⟨"gcc", "gcc", false, true, true⟩, 0⟩ 3 rfl (by decide)⟩

/-- C5: resolving an uncached capability that is not installed and cannot
be installed raises the unsupported-tool error (node.py:153-159) carrying
the node identifier and the linux/remote flags; the node — and so the
registry — is left exactly as it was, with no cached entry under that key,
and later resolutions proceed from the unchanged state. -/
theorem c5_uninstallable_fails_uncached (n : Node) (spec : ToolSpec)
    (h1 : spec.is_installed = false) (h2 : spec.can_install = false)
    (h3 : List.lookup spec.name n.tools = none) :
    n.get_tool (ToolRequest.byType spec)
      = ⟨n, Except.error (NodeError.unsupportedInstall n.identifier n.is_linux n.is_remote),
          [Event.toolInstantiate spec.name, Event.isInstalledProbe spec.name]⟩ ∧
    List.lookup spec.name (n.get_tool (ToolRequest.byType spec)).node.tools = none := by
  have hfirst : n.get_tool (ToolRequest.byType spec)
      = ⟨n, Except.error (NodeError.unsupportedInstall n.identifier n.is_linux n.is_remote),
          [Event.toolInstantiate spec.name, Event.isInstalledProbe spec.name]⟩ := by
    simp [Node.get_tool, h3, Node.finishTool, h1, h2]
  exact ⟨hfirst, by rw [hfirst]; exact h3⟩

/-- C5 witness: a fresh remote node and a capability reporting neither
installed nor installable. -/
theorem c5_uninstallable_fails_uncached_witness :
    ((⟨"badtool", "badtool", false, false, false⟩ : ToolSpec).is_installed = false ∧
      (⟨"badtool", "badtool", false, false, false⟩ : ToolSpec).can_install = false ∧
      List.lookup "badtool" (Node.new "n" true false).tools = none) ∧
    ((Node.new "n" true false).get_tool
        (ToolRequest.byType ⟨"badtool", "badtool", false, false, false⟩)
      = ⟨Node.new "n" true false,
          Except.error (NodeError.unsupportedInstall "n" true true),
          [Event.toolInstantiate "badtool", Event.isInstalledProbe "badtool"]⟩ ∧
      List.lookup "badtool" ((Node.new "n" true false).get_tool
        (ToolRequest.byType ⟨"badtool", "badtool", false, false, false⟩)).node.tools = none) :=
  ⟨⟨rfl, rfl, rfl⟩,
    c5_uninstallable_fails_uncached (Node.new "n" true false)
      ⟨"badtool", "badtool", false, false, false⟩ rfl rfl rfl⟩

/-- C10: `Systemctl.can_install` is `false` whatever else the capability
reports, so on a node where systemctl is not already installed (and not
cached) `get_tool` fails with the unsupported-tool error and never runs an
install routine (no install-attempt event). -/
theorem c10_systemctl_never_installs (n : Node) (b : Bool)
    (h : List.lookup "systemctl" n.tools = none) :
    (Systemctl b).can_install = false ∧
    (n.get_tool (ToolRequest.byType (Systemctl false))).result
      = Except.error (NodeError.unsupportedInstall n.identifier n.is_linux n.is_remote) ∧
    (n.get_tool (ToolRequest.byType (Systemctl false))).events.count
      (Event.installAttempt "systemctl") = 0 := by
  have hfirst : n.get_tool (ToolRequest.byType (Systemctl false))
      = ⟨n, Except.error (NodeError.unsupportedInstall n.identifier n.is_linux n.is_remote),
          [Event.toolInstantiate "systemctl", Event.isInstalledProbe "systemctl"]⟩ := by
    simp [Node.get_tool, Systemctl, h, Node.finishTool]
  refine ⟨rfl, ?_, ?_⟩
  · rw [hfirst]
  · rw [hfirst]
    rfl

/-- C10 witness: a fresh remote node without systemctl. -/
theorem c10_systemctl_never_installs_witness :
    (List.lookup "systemctl" (Node.new "n" true false).tools = none) ∧
    ((Systemctl true).can_install = false ∧
      ((Node.new "n" true false).get_tool
        (ToolRequest.byType (Systemctl false))).result
          = Except.error (NodeError.unsupportedInstall "n" true true) ∧
      ((Node.new "n" true false).get_tool
        (ToolRequest.byType (Systemctl false))).events.count
          (Event.installAttempt "systemctl") = 0) :=
  ⟨rfl, c10_systemctl_never_installs (Node.new "n" true false) true rfl⟩

theorem classify_is_inited (n : Node) (u : UnameResult) :
    (n.classify u).is_inited = n.is_inited := by
  cases hc : (u.kernel_release == "" || !(strContainsSub u.operating_system "Linux")) <;>
    simp [Node.classify, hc]

theorem classify_is_remote (n : Node) (u : UnameResult) :
    (n.classify u).is_remote = n.is_remote := by
  cases hc : (u.kernel_release == "" || !(strContainsSub u.operating_system "Linux")) <;>
    simp [Node.classify, hc]

theorem classify_conn_info (n : Node) (u : UnameResult) :
    (n.classify u).connection_info = n.connection_info := by
  cases hc : (u.kernel_release == "" || !(strContainsSub u.operating_system "Linux")) <;>
    simp [Node.classify, hc]

/-- The classification step computes exactly the conjunction of the claim:
when the node still carries its initial `_is_linux = True`, the stored flag
afterwards is "kernel release non-empty AND the OS string contains
Linux". -/
theorem classify_is_linux (n : Node) (u : UnameResult) (h : n.is_linux = true) :
    (n.classify u).is_linux
      = (!(u.kernel_release == "") && strContainsSub u.operating_system "Linux") := by
  cases hk : (u.kernel_release == "") <;>
    cases hc : strContainsSub u.operating_system "Linux" <;>
      simp [Node.classify, hk, hc, h]

theorem workPath_node_is_inited (n : Node) (env : InitEnv) :
    (n.workPath env).node.is_inited = n.is_inited := by
  cases hci : n.connection_info <;> cases hr : n.is_remote <;> cases hm : env.mkdir_ok <;>
    simp [Node.workPath, hci, hr, hm]

theorem workPath_node_is_linux (n : Node) (env : InitEnv) :
    (n.workPath env).node.is_linux = n.is_linux := by
  cases hci : n.connection_info <;> cases hr : n.is_remote <;> cases hm : env.mkdir_ok <;>
    simp [Node.workPath, hci, hr, hm]

theorem workPath_events (n : Node) (env : InitEnv) :
    (n.workPath env).events = [] ∨
    (n.workPath env).events = [Event.echoExpand, Event.mkdirCall] ∨
    (n.workPath env).events = [Event.mkdirCall] := by
  cases hci : n.connection_info <;> cases hr : n.is_remote <;> cases hm : env.mkdir_ok <;>
    simp [Node.workPath, hci, hr, hm]

/-- The working-path phase raises nothing when mkdir succeeds and a remote
node carries its connection info — independently of what the probe
returned. -/
theorem workPath_err_none (n : Node) (env : InitEnv) (hm : env.mkdir_ok = true)
    (hc : n.is_remote = true → n.connection_info.isSome = true) :
    (n.workPath env).err = none := by
  cases hr : n.is_remote with
  | false => simp [Node.workPath, hr, hm]
  | true =>
    have hs := hc hr
    cases hci : n.connection_info with
    | none => rw [hci] at hs; simp at hs
    | some c => simp [Node.workPath, hr, hci, hm]

/-- A node whose one-shot flag is set: `_initialize` observes the flag and
does nothing (node.py:205). -/
theorem runInit_inited (n : Node) (env : InitEnv) (h : n.is_inited = true) :
    n.runInit env = ⟨n, [], none⟩ := by
  simp [Node.runInit, h]

/-- After any `_initialize` call — also one that raised partway — the
one-shot flag is set: it is set before any work begins and never reset
(node.py:206-207). -/
theorem runInit_sets_flag (n : Node) (env : InitEnv) :
    (n.runInit env).node.is_inited = true := by
  by_cases h : n.is_inited
  · simp [Node.runInit, h]
  · cases hs : env.shell_connect_ok <;>
      simp [Node.runInit, h, hs, workPath_node_is_inited, classify_is_inited]

/-- The trace of one `_initialize` call is duplicate-free: each side effect
happens at most once within the call. -/
theorem runInit_events_nodup (n : Node) (env : InitEnv) :
    (n.runInit env).events.Nodup := by
  by_cases h : n.is_inited
  · simp [Node.runInit, h]
  · cases hs : env.shell_connect_ok
    · simp [Node.runInit, h, hs]
    · rcases workPath_events (({ n with is_inited := true } : Node).classify env.uname_result)
        env with hw | hw | hw <;> simp [Node.runInit, h, hs, hw]

/-- Every public call leaves the one-shot flag set. -/
theorem step_node_is_inited (n : Node) (env : InitEnv) (op : NodeOp) :
    (n.step env op).1.is_inited = true := by
  cases he : (n.runInit env).err <;> cases op <;>
    simp [Node.step, he, runInit_sets_flag]

/-- A public call on an already-initialized node leaves it unchanged. -/
theorem step_node_of_inited (n : Node) (env : InitEnv) (op : NodeOp)
    (h : n.is_inited = true) : (n.step env op).1 = n := by
  have hr := runInit_inited n env h
  cases op <;> simp [Node.step, hr]

/-- Each init-phase side effect occurs at most once per public call, and
not at all when the node is already initialized. -/
theorem step_count (n : Node) (env : InitEnv) (op : NodeOp) (e : Event)
    (he : e ≠ Event.processStart) :
    (n.step env op).2.count e ≤ if n.is_inited then 0 else 1 := by
  by_cases h : n.is_inited
  · have hr := runInit_inited n env h
    cases op <;> simp [Node.step, hr, h, List.count_cons, Ne.symm he]
  · have h1 : (n.runInit env).events.count e ≤ 1 :=
      List.nodup_iff_count_le_one.mp (runInit_events_nodup n env) e
    cases herr : (n.runInit env).err <;> cases op <;>
      simp [Node.step, herr, h, List.count_append, List.count_cons, Ne.symm he] <;>
        exact h1

/-- Across any sequence of public calls, each init-phase side effect occurs
at most once — and not at all when the node starts out initialized. -/
theorem runOps_count (env : InitEnv) (e : Event) (he : e ≠ Event.processStart)
    (ops : List NodeOp) (n : Node) :
    (n.runOps env ops).2.count e ≤ if n.is_inited then 0 else 1 := by
  induction ops generalizing n with
  | nil => simp [Node.runOps]
  | cons op rest ih =>
    have hstep := step_count n env op e he
    have hrest := ih (n.step env op).1
    rw [step_node_is_inited n env op] at hrest
    simp only [if_true] at hrest
    simp only [Node.runOps, List.count_append]
    by_cases h : n.is_inited <;> simp [h] at hstep ⊢ <;> omega

/-- C1: across any sequence of execute/executeasync/is_linux calls the
initialization body runs at most once — at most one shell connect, one
bootstrap uname probe, one working-directory expansion and one directory
creation occur in the whole trace; the one-shot flag is true after any
`_initialize` call, including one that raised partway (so a failed
initialization is never retried); and on a node whose flag is set,
`_initialize` does nothing at all. -/
theorem c1_initialization_at_most_once (env : InitEnv) (n : Node) (ops : List NodeOp) :
    ((n.runOps env ops).2.count Event.shellConnect ≤ 1 ∧
      (n.runOps env ops).2.count Event.unameProbe ≤ 1 ∧
      (n.runOps env ops).2.count Event.echoExpand ≤ 1 ∧
      (n.runOps env ops).2.count Event.mkdirCall ≤ 1) ∧
    (n.runInit env).node.is_inited = true ∧
    ({ n with is_inited := true } : Node).runInit env
      = ⟨{ n with is_inited := true }, [], none⟩ := by
  refine ⟨⟨?_, ?_, ?_, ?_⟩, runInit_sets_flag n env, runInit_inited _ env rfl⟩
  all_goals
    refine le_trans (runOps_count env _ (by decide) ops n) ?_
    split <;> omega

/-- C2: when the shell connect succeeds, the classification stored by
`_initialize` — and hence what the `is_linux` property returns from then
on — is true iff the probed kernel release is non-empty and the probed OS
string contains "Linux" (an empty probe therefore classifies the node
non-Linux); and the probe result never causes the initialization to raise:
with mkdir succeeding and the connection info present where required, no
error occurs, whatever the probe returned. -/
theorem c2_linux_classification (n : Node) (env : InitEnv)
    (h1 : n.is_inited = false) (h2 : n.is_linux = true)
    (h3 : env.shell_connect_ok = true) :
    (n.runInit env).node.is_linux
      = (!(env.uname_result.kernel_release == "")
          && strContainsSub env.uname_result.operating_system "Linux") ∧
    (env.mkdir_ok = true →
      (n.is_remote = true → n.connection_info.isSome = true) →
      (n.runInit env).err = none) := by
  constructor
  · have hcl := classify_is_linux ({ n with is_inited := true } : Node)
      env.uname_result h2
    simp [Node.runInit, h1, h3, workPath_node_is_linux, hcl]
  · intro hm hc
    simp only [Node.runInit, h1, Bool.false_eq_true, if_false, h3, if_true]
    apply workPath_err_none _ env hm
    intro hr
    rw [classify_is_remote] at hr
    rw [classify_conn_info]
    exact hc hr

/-- A remote node with connection info attached, still uninitialized. -/
def c2WitnessNode : Node :=
  ((Node.new "w" true false).set_connection_info { address := "10.0.0.5" }).1

/-- An environment where the shell connects, mkdir succeeds, and the
bootstrap probe returns nothing. -/
def c2WitnessEnv : InitEnv where
  shell_connect_ok := true
  uname_result := ⟨"", "", "", ""⟩
  echo_expand := fun s => s
  run_path := "run1"
  run_local_path := "lrun"
  mkdir_ok := true

/-- C2 witness: on a remote node whose bootstrap probe returns nothing,
initialization classifies the node non-Linux and raises no error. -/
theorem c2_linux_classification_witness :
    (c2WitnessNode.is_inited = false ∧ c2WitnessNode.is_linux = true ∧
      c2WitnessEnv.shell_connect_ok = true) ∧
    ((c2WitnessNode.runInit c2WitnessEnv).node.is_linux
      = (!(("" : String) == "") && strContainsSub "" "Linux") ∧
    (c2WitnessEnv.mkdir_ok = true →
      (c2WitnessNode.is_remote = true → c2WitnessNode.connection_info.isSome = true) →
      (c2WitnessNode.runInit c2WitnessEnv).err = none)) :=
  ⟨⟨by decide, by decide, rfl⟩,
    c2_linux_classification c2WitnessNode c2WitnessEnv (by decide) (by decide) rfl⟩
